import Mathlib

/-!
# Verification of the Pessoa CRUD service with read-through / write-invalidate cache

Shallow embedding of the cache coordination core of the `datacrazy-backend-challenge-2`
repository:

* `CacheService.generateKey` (SHA-256 over `JSON.stringify({prefix, params})`,
  `src/cache/cache.service.ts`),
* `CacheService.get/set/del` with hit/miss metrics,
* `PessoaDao` (Prisma-backed CRUD, modelled over an explicit row list),
* `PessoaService` (read-through lookups and write-invalidate mutations,
  `src/pessoa/pessoa.service.ts`),
* `MetricsService` (`src/common/metrics/metrics.service.ts`),
* `HttpExceptionFilter` (`src/common/filters/http-exception.filter.ts`).

Stateful code is embedded as explicit state passing over a `Sys` state, and each
service operation additionally returns the ordered list of observable cache/DAO
events, which is how "number of DAO calls" and "invalidations after the mutation"
are expressed.  Promises always awaited in sequence collapse to sequential
composition.  Wall-clock data (timestamps, TTL expiry, uptime) is carried but never
advanced, since no claim depends on real time.
-/

/-! ## Pessoa data model (`prisma/schema.prisma`, `@prisma/client` types) -/

/-- A `Pessoa` row as produced by Prisma (`id`, `nome`, `idade`, `cpf`, `endereco`,
`email`, `telefone`, `createdAt`, `updatedAt`).  Timestamps are carried as `Nat`
milliseconds. -/
structure Pessoa where
  id : String
  nome : String
  idade : Nat
  cpf : String
  endereco : String
  email : String
  telefone : String
  createdAt : Nat
  updatedAt : Nat
deriving DecidableEq, Repr

/-- `Prisma.PessoaUpdateInput` restricted to the scalar fields of the model: every
field optional (partial update). -/
structure PessoaUpdateInput where
  nome : Option String := none
  idade : Option Nat := none
  cpf : Option String := none
  endereco : Option String := none
  email : Option String := none
  telefone : Option String := none
deriving DecidableEq, Repr

/-- Apply a partial update to a row, Prisma `update` semantics: present fields
overwrite, absent fields keep the old value. -/
def applyUpdate (p : Pessoa) (d : PessoaUpdateInput) : Pessoa :=
  { p with
    nome := d.nome.getD p.nome
    idade := d.idade.getD p.idade
    cpf := d.cpf.getD p.cpf
    endereco := d.endereco.getD p.endereco
    email := d.email.getD p.email
    telefone := d.telefone.getD p.telefone }

/-! ## JSON serialization of the key pre-image

`CacheService.generateKey(prefix, params)` computes
`JSON.stringify({ prefix, params })` and hashes it.  All call sites pass a list of
strings as `params`, so the embedding types `params : List String`.  The object
literal serializes with insertion order: `{"prefix":<str>,"params":[<str>,...]}`.
`JSON.stringify` escapes `"` and `\`, the named controls `\b \t \n \f \r`, and all
other chars below U+0020 as `\u00xx`; everything else is emitted verbatim. -/

/-- Lowercase hex digit, as used both by `JSON.stringify` `\u00xx` escapes and by
`digest('hex')`. -/
def hexChar (n : Nat) : Char :=
  match n with
  | 0 => '0' | 1 => '1' | 2 => '2' | 3 => '3'
  | 4 => '4' | 5 => '5' | 6 => '6' | 7 => '7'
  | 8 => '8' | 9 => '9' | 10 => 'a' | 11 => 'b'
  | 12 => 'c' | 13 => 'd' | 14 => 'e' | _ => 'f'

/-- One character of `JSON.stringify` string escaping. -/
def escapeChar (c : Char) : List Char :=
  if c = '"' then ['\\', '"']
  else if c = '\\' then ['\\', '\\']
  else if c = '\x08' then ['\\', 'b']
  else if c = '\x09' then ['\\', 't']
  else if c = '\x0a' then ['\\', 'n']
  else if c = '\x0c' then ['\\', 'f']
  else if c = '\x0d' then ['\\', 'r']
  else if c.toNat < 32 then
    '\\' :: 'u' :: '0' :: '0' :: [hexChar (c.toNat / 16), hexChar (c.toNat % 16)]
  else [c]

/-- JSON string-body escaping of a whole string. -/
def escapeStr (s : List Char) : List Char :=
  s.flatMap escapeChar

/-- A JSON string literal: `"` body `"`. -/
def quoteL (s : List Char) : List Char :=
  '"' :: escapeStr s ++ ['"']

/-- Body of the JSON array of `params`: items separated by `,`. -/
def itemsL : List (List Char) → List Char
  | [] => []
  | p :: rest => quoteL p ++ rest.flatMap (fun q => ',' :: quoteL q)

/-- `JSON.stringify({ prefix, params })` as a character list:
`{"prefix":<quoted>,"params":[<items>]}`. -/
def serialL (opName : List Char) (ps : List (List Char)) : List Char :=
  ("\x7b\"prefix\":").data ++ quoteL opName
    ++ (",\"params\":").data ++ '[' :: itemsL ps ++ [']', '\x7d']

/-- String-level wrapper of `serialL`: the exact content `CacheService.generateKey`
hashes. -/
def serializeKeyInput (opName : String) (params : List String) : String :=
  ⟨serialL opName.data (params.map String.data)⟩

/-! ## SHA-256 (`crypto.createHash('sha256')`, FIPS 180-4)

Bytes and 32-bit words are `Nat` with explicit `% 2 ^ 32` / `% 256` where overflow
matters.  The message is the UTF-8 encoding of the serialized key pre-image. -/

/-- Right rotation of a 32-bit word. -/
def rotr32 (n w : Nat) : Nat :=
  ((w >>> n) ||| (w <<< (32 - n))) % 4294967296

/-- FIPS 180-4 `Ch`: the complement is `xor` with the all-ones 32-bit word. -/
def shaCh (e f g : Nat) : Nat :=
  (e &&& f) ^^^ ((e ^^^ 4294967295) &&& g)

/-- FIPS 180-4 `Maj`. -/
def shaMaj (a b c : Nat) : Nat :=
  Nat.xor (Nat.xor (a &&& b) (a &&& c)) (b &&& c)

/-- FIPS 180-4 `Σ₀`. -/
def bigSigma0 (x : Nat) : Nat := rotr32 2 x ^^^ rotr32 13 x ^^^ rotr32 22 x

/-- FIPS 180-4 `Σ₁`. -/
def bigSigma1 (x : Nat) : Nat := rotr32 6 x ^^^ rotr32 11 x ^^^ rotr32 25 x

/-- FIPS 180-4 `σ₀`. -/
def smallSigma0 (x : Nat) : Nat := rotr32 7 x ^^^ rotr32 18 x ^^^ (x >>> 3)

/-- FIPS 180-4 `σ₁`. -/
def smallSigma1 (x : Nat) : Nat := rotr32 17 x ^^^ rotr32 19 x ^^^ (x >>> 10)

/-- The eight working variables of the compression function. -/
structure Sha256State where
  a : Nat
  b : Nat
  c : Nat
  d : Nat
  e : Nat
  f : Nat
  g : Nat
  h : Nat
deriving DecidableEq, Repr

/-- Initial hash value `H⁽⁰⁾`. -/
def sha256Init : Sha256State :=
  ⟨1779033703, 3144134277, 1013904242, 2773480762,
   1359893119, 2600822924, 528734635, 1541459225⟩

/-- The 64 round constants `K`. -/
def sha256K : List Nat :=
  [ 1116352408, 1899447441, 3049323471, 3921009573, 961987163,
    1508970993, 2453635748, 2870763221, 3624381080, 310598401,
    607225278, 1426881987, 1925078388, 2162078206, 2614888103,
    3248222580, 3835390401, 4022224774, 264347078, 604807628,
    770255983, 1249150122, 1555081692, 1996064986, 2554220882,
    2821834349, 2952996808, 3210313671, 3336571891, 3584528711,
    113926993, 338241895, 666307205, 773529912, 1294757372,
    1396182291, 1695183700, 1986661051, 2177026350, 2456956037,
    2730485921, 2820302411, 3259730800, 3345764771, 3516065817,
    3600352804, 4094571909, 275423344, 430227734, 506948616,
    659060556, 883997877, 958139571, 1322822218, 1537002063,
    1747873779, 1955562222, 2024104815, 2227730452, 2361852424,
    2428436474, 2756734187, 3204031479, 3329325298 ]

/-- Big-endian bytes of the 64-bit message bit-length. -/
def lenBytes64 (l : Nat) : List Nat :=
  [(l >>> 56) % 256, (l >>> 48) % 256, (l >>> 40) % 256, (l >>> 32) % 256,
   (l >>> 24) % 256, (l >>> 16) % 256, (l >>> 8) % 256, l % 256]

/-- Padding: append `0x80`, zero bytes up to 56 mod 64, then the bit length. -/
def padMessage (msg : List Nat) : List Nat :=
  msg ++ 0x80 :: List.replicate ((119 - msg.length % 64) % 64) 0
    ++ lenBytes64 (8 * msg.length)

/-- Big-endian 32-bit words of a byte list. -/
def toWords : List Nat → List Nat
  | b0 :: b1 :: b2 :: b3 :: rest =>
    ((b0 <<< 24) + (b1 <<< 16) + (b2 <<< 8) + b3) :: toWords rest
  | _ => []

/-- Extend the 16 message-schedule words by `n` more words. -/
def extendSchedule (ws : List Nat) : Nat → List Nat
  | 0 => ws
  | n + 1 =>
    extendSchedule
      (ws ++ [(smallSigma1 (ws.getD (ws.length - 2) 0) + ws.getD (ws.length - 7) 0
        + smallSigma0 (ws.getD (ws.length - 15) 0) + ws.getD (ws.length - 16) 0)
        % 4294967296]) n

/-- One compression round on the working variables, for a `(Kᵢ, Wᵢ)` pair. -/
def roundStep (st : Sha256State) (kw : Nat × Nat) : Sha256State :=
  let t1 := (st.h + bigSigma1 st.e + shaCh st.e st.f st.g + kw.1 + kw.2) % 4294967296
  let t2 := (bigSigma0 st.a + shaMaj st.a st.b st.c) % 4294967296
  { a := (t1 + t2) % 4294967296, b := st.a, c := st.b, d := st.c,
    e := (st.d + t1) % 4294967296, f := st.e, g := st.f, h := st.g }

/-- Compress one 64-byte chunk into the running hash state. -/
def compressChunk (st : Sha256State) (chunk : List Nat) : Sha256State :=
  let t := (sha256K.zip (extendSchedule (toWords chunk) 48)).foldl roundStep st
  { a := (st.a + t.a) % 4294967296, b := (st.b + t.b) % 4294967296,
    c := (st.c + t.c) % 4294967296, d := (st.d + t.d) % 4294967296,
    e := (st.e + t.e) % 4294967296, f := (st.f + t.f) % 4294967296,
    g := (st.g + t.g) % 4294967296, h := (st.h + t.h) % 4294967296 }

/-- Split a byte list into 64-byte chunks. -/
def chunks64 : List Nat → List (List Nat)
  | [] => []
  | x :: xs => (x :: xs).take 64 :: chunks64 ((x :: xs).drop 64)
termination_by l => l.length
decreasing_by simp [List.length_drop]; omega

/-- Big-endian bytes of one 32-bit word. -/
def wordBytes (w : Nat) : List Nat :=
  [(w >>> 24) % 256, (w >>> 16) % 256, (w >>> 8) % 256, w % 256]

/-- Final digest: the eight state words, big-endian. -/
def stateBytes (st : Sha256State) : List Nat :=
  wordBytes st.a ++ wordBytes st.b ++ wordBytes st.c ++ wordBytes st.d
    ++ wordBytes st.e ++ wordBytes st.f ++ wordBytes st.g ++ wordBytes st.h

/-- SHA-256 of a byte list: 32 digest bytes. -/
def sha256 (msg : List Nat) : List Nat :=
  stateBytes ((chunks64 (padMessage msg)).foldl compressChunk sha256Init)

/-- UTF-8 bytes of a string (`Buffer.from(content, 'utf8')`). -/
def utf8Bytes (s : String) : List Nat :=
  s.toUTF8.data.toList.map UInt8.toNat

/-- Lowercase hex encoding of a byte list (`digest('hex')`). -/
def hexEncode (bytes : List Nat) : List Char :=
  bytes.flatMap (fun b => [hexChar (b / 16 % 16), hexChar (b % 16)])

/-- `CacheService.generateKey(prefix, params)`: SHA-256 of
`JSON.stringify({ prefix, params })`, hex encoded.  The source's `prefix`
argument is named `opName` here. -/
def CacheService.generateKey (opName : String) (params : List String) : String :=
  ⟨hexEncode (sha256 (utf8Bytes (serializeKeyInput opName params)))⟩

/-! ## MetricsService (`src/common/metrics/metrics.service.ts`)

The three `Map`s are embedded as total functions with the code's own defaults
(`get(key) || 0` for the counters; the `has`-guarded sample list defaults to `[]`).
JS `number` arithmetic of `getCacheHitRate` is embedded over `ℚ`; `Math.round` is
Mathlib's `round` (both round half up on the nonnegative values that occur). -/

/-- Process-wide metrics state. -/
structure Metrics where
  cacheHits : Nat
  cacheMisses : Nat
  requestCounts : String → Nat
  responseTimes : String → List Nat
  errorCounts : String → Nat
  startTime : Nat

namespace MetricsService

/-- Field initializers at construction time (`Date.now()` passed explicitly). -/
def init (now : Nat) : Metrics :=
  ⟨0, 0, fun _ => 0, fun _ => [], fun _ => 0, now⟩

/-- `incrementCacheHit` (the optional `key` argument is unused by the source). -/
def incrementCacheHit (m : Metrics) : Metrics :=
  { m with cacheHits := m.cacheHits + 1 }

/-- `incrementCacheMiss`. -/
def incrementCacheMiss (m : Metrics) : Metrics :=
  { m with cacheMisses := m.cacheMisses + 1 }

/-- `getCacheHitRate`: `total === 0 ? 0 : Math.round((hits / total) * 100 * 100) / 100`. -/
def getCacheHitRate (m : Metrics) : ℚ :=
  let total := m.cacheHits + m.cacheMisses
  if total = 0 then 0
  else (round (((m.cacheHits : ℚ) / (total : ℚ)) * 100 * 100) : ℚ) / 100

/-- `trackRequest(method, path, responseTime, statusCode)`. -/
def trackRequest (m : Metrics) (method path : String) (responseTime statusCode : Nat) :
    Metrics :=
  let key := s!"{method} {path}"
  { m with
    requestCounts := fun k => if k = key then m.requestCounts k + 1 else m.requestCounts k
    responseTimes := fun k =>
      if k = key then m.responseTimes k ++ [responseTime] else m.responseTimes k
    errorCounts :=
      if 400 ≤ statusCode then
        fun k => if k = key then m.errorCounts k + 1 else m.errorCounts k
      else m.errorCounts }

/-- The `cache` section of the `getMetrics()` snapshot (the only section a claim
is about; the per-endpoint section and wall-clock fields are not embedded).
Returned together with the unchanged state: `getMetrics` is read-only. -/
structure CacheSnapshot where
  hits : Nat
  misses : Nat
  hitRate : ℚ
  total : Nat
deriving DecidableEq, Repr

/-- `getMetrics().cache`, recomputed from the current counters at call time. -/
def getMetrics (m : Metrics) : CacheSnapshot × Metrics :=
  (⟨m.cacheHits, m.cacheMisses, getCacheHitRate m, m.cacheHits + m.cacheMisses⟩, m)

/-- `reset()`: zero the counters, clear the maps, restart the uptime clock. -/
def reset (_m : Metrics) (now : Nat) : Metrics :=
  ⟨0, 0, fun _ => 0, fun _ => [], fun _ => 0, now⟩

end MetricsService

/-! ## System state, events, CacheService, PessoaDao, PessoaService

Each operation returns its result, the successor state, and the ordered list of
observable cache/DAO events it performed. -/

/-- Observable cache and DAO actions, in program order. -/
inductive Event where
  | cacheGet (key : String) (hit : Bool)
  | cacheSet (key : String) (ttl : Nat)
  | cacheDel (key : String)
  | daoGetById (id : String)
  | daoFindByEmail (email : String)
  | daoFindByTelefone (telefone : String)
  | daoCreate
  | daoUpdate (id : String)
  | daoDelete (id : String)
deriving DecidableEq, Repr

/-- Is the event a DAO round-trip (read or mutation)? -/
def Event.isDaoCall : Event → Bool
  | .daoGetById _ | .daoFindByEmail _ | .daoFindByTelefone _
  | .daoCreate | .daoUpdate _ | .daoDelete _ => true
  | _ => false

/-- Is the event a DAO persistent mutation? -/
def Event.isDaoMutation : Event → Bool
  | .daoCreate | .daoUpdate _ | .daoDelete _ => true
  | _ => false

/-- The key of a cache `del`, if the event is one. -/
def Event.delKey? : Event → Option String
  | .cacheDel k => some k
  | _ => none

/-- The key of a cache `set`, if the event is one. -/
def Event.setKey? : Event → Option String
  | .cacheSet k _ => some k
  | _ => none

/-- The in-memory store behind `cache-manager`: key, value, per-entry TTL. -/
def CacheStore := List (String × Pessoa × Nat)

/-- Store lookup (first binding wins). -/
def cacheLookup : List (String × Pessoa × Nat) → String → Option Pessoa
  | [], _ => none
  | (k, v, _) :: rest, key => if key = k then some v else cacheLookup rest key

/-- Store write: overwrites any existing entry under the same key. -/
def cacheStoreSet (c : List (String × Pessoa × Nat)) (key : String) (v : Pessoa)
    (ttl : Nat) : List (String × Pessoa × Nat) :=
  (key, v, ttl) :: c.filter (fun e => e.1 != key)

/-- Store delete: removing an absent key is a no-op. -/
def cacheStoreDel (c : List (String × Pessoa × Nat)) (key : String) :
    List (String × Pessoa × Nat) :=
  c.filter (fun e => e.1 != key)

/-- Whole-system state threaded through every operation. -/
structure Sys where
  cache : List (String × Pessoa × Nat)
  db : List Pessoa
  metrics : Metrics

namespace CacheService

/-- `CacheService.get`: `cacheManager.get` then hit/miss metrics.  A stored
`Pessoa` object is always truthy, so the source's `if (value)` / `value || null`
coincide with `Option` presence. -/
def get (s : Sys) (key : String) : Option Pessoa × Sys × List Event :=
  match cacheLookup s.cache key with
  | some v =>
    (some v, { s with metrics := MetricsService.incrementCacheHit s.metrics },
     [.cacheGet key true])
  | none =>
    (none, { s with metrics := MetricsService.incrementCacheMiss s.metrics },
     [.cacheGet key false])

/-- `CacheService.set`: store with TTL. -/
def set (s : Sys) (key : String) (v : Pessoa) (ttl : Nat) : Sys × List Event :=
  ({ s with cache := cacheStoreSet s.cache key v ttl }, [.cacheSet key ttl])

/-- `CacheService.del`. -/
def del (s : Sys) (key : String) : Sys × List Event :=
  ({ s with cache := cacheStoreDel s.cache key }, [.cacheDel key])

end CacheService

/-- Prisma errors the DAO layer can raise on the claim-relevant paths. -/
inductive DaoErr where
  | uniqueViolation (field : String)
  | recordNotFound
deriving DecidableEq, Repr

namespace PessoaDao

/-- `prisma.pessoa.findUnique({ where: { id } })`. -/
def getById (s : Sys) (id : String) : Option Pessoa × List Event :=
  (s.db.find? (fun p => p.id == id), [.daoGetById id])

/-- `SELECT * FROM pessoas WHERE email = ${email} LIMIT 1`, then `result[0] || null`. -/
def findByEmail (s : Sys) (email : String) : Option Pessoa × List Event :=
  (s.db.find? (fun p => p.email == email), [.daoFindByEmail email])

/-- `SELECT * FROM pessoas WHERE telefone = ${telefone} LIMIT 1`. -/
def findByTelefone (s : Sys) (telefone : String) : Option Pessoa × List Event :=
  (s.db.find? (fun p => p.telefone == telefone), [.daoFindByTelefone telefone])

/-- The creation payload (`CreatePessoaDto` scalar fields). -/
structure PessoaCreateInput where
  nome : String
  idade : Nat
  cpf : String
  endereco : String
  email : String
  telefone : String
deriving DecidableEq, Repr

/-- `prisma.pessoa.create`: the database enforces the `cpf`/`email`/`telefone`
unique constraints (P2002 carrying the violated column) and generates `id` and the
timestamps, which the embedding takes as parameters. -/
def create (s : Sys) (d : PessoaCreateInput) (genId : String) (now : Nat) :
    Except DaoErr Pessoa × Sys × List Event :=
  if s.db.any (fun p => p.cpf == d.cpf) then
    (.error (.uniqueViolation "cpf"), s, [.daoCreate])
  else if s.db.any (fun p => p.email == d.email) then
    (.error (.uniqueViolation "email"), s, [.daoCreate])
  else if s.db.any (fun p => p.telefone == d.telefone) then
    (.error (.uniqueViolation "telefone"), s, [.daoCreate])
  else
    let row : Pessoa := ⟨genId, d.nome, d.idade, d.cpf, d.endereco, d.email, d.telefone, now, now⟩
    (.ok row, { s with db := s.db ++ [row] }, [.daoCreate])

/-- `prisma.pessoa.update({ where: { id }, data })`: P2025 when the id is absent,
P2002 when an updated unique column collides with another row. -/
def update (s : Sys) (id : String) (data : PessoaUpdateInput) :
    Except DaoErr Pessoa × Sys × List Event :=
  match s.db.find? (fun p => p.id == id) with
  | none => (.error .recordNotFound, s, [.daoUpdate id])
  | some old =>
    let row := applyUpdate old data
    if s.db.any (fun p => p.id != id && p.cpf == row.cpf) then
      (.error (.uniqueViolation "cpf"), s, [.daoUpdate id])
    else if s.db.any (fun p => p.id != id && p.email == row.email) then
      (.error (.uniqueViolation "email"), s, [.daoUpdate id])
    else if s.db.any (fun p => p.id != id && p.telefone == row.telefone) then
      (.error (.uniqueViolation "telefone"), s, [.daoUpdate id])
    else
      (.ok row, { s with db := s.db.map (fun p => if p.id == id then row else p) },
       [.daoUpdate id])

/-- `prisma.pessoa.delete({ where: { id } })`: P2025 when the id is absent. -/
def delete (s : Sys) (id : String) : Except DaoErr Pessoa × Sys × List Event :=
  match s.db.find? (fun p => p.id == id) with
  | none => (.error .recordNotFound, s, [.daoDelete id])
  | some p => (.ok p, { s with db := s.db.filter (fun q => q.id != id) }, [.daoDelete id])

end PessoaDao

/-- Errors escaping `PessoaService`: thrown `NotFoundException`s, or an uncaught
DAO error propagating through (the `src/pessoa/pessoa.service.ts` snapshot has no
`catch` around its DAO calls). -/
inductive ServiceErr where
  | notFound (message : String)
  | dao (e : DaoErr)
deriving DecidableEq, Repr

namespace PessoaService

/-- `private readonly CACHE_TTL = 300_000`. -/
def CACHE_TTL : Nat := 300000

/-- `evictCacheForPessoa`: derive the two keys, delete both, in order. -/
def evictCacheForPessoa (s : Sys) (pessoa : Pessoa) : Sys × List Event :=
  let emailCacheKey := CacheService.generateKey "findByEmail" [pessoa.email]
  let telefoneCacheKey := CacheService.generateKey "findByTelefone" [pessoa.telefone]
  let r1 := CacheService.del s emailCacheKey
  let r2 := CacheService.del r1.1 telefoneCacheKey
  (r2.1, r1.2 ++ r2.2)

/-- `PessoaService.create`: DAO insert, then evict the new keys. -/
def create (s : Sys) (d : PessoaDao.PessoaCreateInput) (genId : String) (now : Nat) :
    Except ServiceErr Pessoa × Sys × List Event :=
  match PessoaDao.create s d genId now with
  | (.error e, s1, t1) => (.error (.dao e), s1, t1)
  | (.ok pessoa, s1, t1) =>
    let r := evictCacheForPessoa s1 pessoa
    (.ok pessoa, r.1, t1 ++ r.2)

/-- `PessoaService.findByEmail`: cache get, on miss DAO read, not-found on no row,
otherwise cache set with the default TTL and return. -/
def findByEmail (s : Sys) (email : String) : Except ServiceErr Pessoa × Sys × List Event :=
  let cacheKey := CacheService.generateKey "findByEmail" [email]
  match CacheService.get s cacheKey with
  | (some cached, s1, t1) => (.ok cached, s1, t1)
  | (none, s1, t1) =>
    match PessoaDao.findByEmail s1 email with
    | (none, t2) =>
      (.error (.notFound s!"Pessoa with email \"{email}\" not found"), s1, t1 ++ t2)
    | (some pessoa, t2) =>
      let r := CacheService.set s1 cacheKey pessoa CACHE_TTL
      (.ok pessoa, r.1, t1 ++ t2 ++ r.2)

/-- `PessoaService.findByTelefone`: same strategy as `findByEmail`. -/
def findByTelefone (s : Sys) (telefone : String) :
    Except ServiceErr Pessoa × Sys × List Event :=
  let cacheKey := CacheService.generateKey "findByTelefone" [telefone]
  match CacheService.get s cacheKey with
  | (some cached, s1, t1) => (.ok cached, s1, t1)
  | (none, s1, t1) =>
    match PessoaDao.findByTelefone s1 telefone with
    | (none, t2) =>
      (.error (.notFound s!"Pessoa with telefone \"{telefone}\" not found"), s1, t1 ++ t2)
    | (some pessoa, t2) =>
      let r := CacheService.set s1 cacheKey pessoa CACHE_TTL
      (.ok pessoa, r.1, t1 ++ t2 ++ r.2)

/-- `PessoaService.update`: read the old row, DAO update, then evict old and new
keys. -/
def update (s : Sys) (id : String) (data : PessoaUpdateInput) :
    Except ServiceErr Pessoa × Sys × List Event :=
  match PessoaDao.getById s id with
  | (none, t1) => (.error (.notFound s!"Pessoa with ID \"{id}\" not found"), s, t1)
  | (some oldPessoa, t1) =>
    match PessoaDao.update s id data with
    | (.error e, s1, t2) => (.error (.dao e), s1, t1 ++ t2)
    | (.ok updatedPessoa, s1, t2) =>
      let r1 := evictCacheForPessoa s1 oldPessoa
      let r2 := evictCacheForPessoa r1.1 updatedPessoa
      (.ok updatedPessoa, r2.1, t1 ++ t2 ++ r1.2 ++ r2.2)

/-- `PessoaService.delete`: read the row, DAO delete, then evict its keys. -/
def delete (s : Sys) (id : String) : Except ServiceErr Pessoa × Sys × List Event :=
  match PessoaDao.getById s id with
  | (none, t1) => (.error (.notFound s!"Pessoa with ID \"{id}\" not found"), s, t1)
  | (some pessoa, t1) =>
    match PessoaDao.delete s id with
    | (.error e, s1, t2) => (.error (.dao e), s1, t1 ++ t2)
    | (.ok deleted, s1, t2) =>
      let r := evictCacheForPessoa s1 pessoa
      (.ok deleted, r.1, t1 ++ t2 ++ r.2)

end PessoaService

/-- `PessoaController.update` (snapshot with service): a catch-all that converts
any failure of `pessoaService.update` into `NotFoundException`. -/
def PessoaController.update (s : Sys) (id : String) (data : PessoaUpdateInput) :
    Except ServiceErr Pessoa × Sys × List Event :=
  match PessoaService.update s id data with
  | (.ok p, s1, t) => (.ok p, s1, t)
  | (.error _, s1, t) => (.error (.notFound s!"Pessoa with ID {id} not found"), s1, t)

/-! ## HttpExceptionFilter (`src/common/filters/http-exception.filter.ts`)

The caught `exception: any` is embedded as the record of exactly the fields the
filter inspects.  JS `a || b` on possibly-absent strings is `jsOrStr` (the empty
string is falsy).  The response DTO's wall-clock `timestamp` field is not
embedded. -/

/-- The object form of `HttpException#getResponse()`: the fields the filter reads.
`details` values are embedded as string key/value pairs. -/
structure RespObj where
  error : Option String := none
  message : Option String := none
  details : Option (List (String × String)) := none
deriving DecidableEq, Repr

/-- `getResponse()` is either an object or a plain string. -/
inductive ExnResponse where
  | obj (r : RespObj)
  | str (s : String)
deriving DecidableEq, Repr

/-- The shape of a caught exception, as inspected by the filter. -/
structure Exn where
  isHttpException : Bool := false
  status : Nat := 0
  response : Option ExnResponse := none
  code : Option String := none
  metaTarget : List String := []
  message : Option String := none
  name : Option String := none
deriving DecidableEq, Repr

/-- JS `a || b` for a possibly-absent string: the empty string is falsy. -/
def jsOrStr (a : Option String) (b : String) : String :=
  match a with
  | some s => if s = "" then b else s
  | none => b

/-- The `(errorCode, errorMessage, errorDetails)` triple the filter computes
before sanitization. -/
structure ErrorInfo where
  errorCode : String
  errorMessage : String
  errorDetails : Option (List (String × String))
deriving DecidableEq, Repr

namespace HttpExceptionFilter

/-- `exception instanceof HttpException ? exception.getStatus() : 500`. -/
def statusOf (exn : Exn) : Nat :=
  if exn.isHttpException then exn.status else 500

/-- Lines 56–83 of the filter: defaults, the three response-shape branches, then
the Prisma `P2002` / `P2003` overrides. -/
def extractError (exn : Exn) : ErrorInfo :=
  let base : ErrorInfo :=
    match (if exn.isHttpException then exn.response else none) with
    | some (.obj r) =>
      ⟨jsOrStr r.error (jsOrStr exn.name "INTERNAL_SERVER_ERROR"),
       jsOrStr r.message "An unexpected error occurred", r.details⟩
    | some (.str m) => ⟨"INTERNAL_SERVER_ERROR", m, none⟩
    | none =>
      ⟨"INTERNAL_SERVER_ERROR", jsOrStr exn.message "An unexpected error occurred", none⟩
  if exn.code = some "P2002" then
    let field := jsOrStr exn.metaTarget.head? "field"
    ⟨"DUPLICATE_ENTRY", s!"A record with this {field} already exists",
     some [("field", field), ("constraint", "unique")]⟩
  else if exn.code = some "P2003" then
    ⟨"FOREIGN_KEY_VIOLATION", "Referenced record does not exist",
     some [("constraint", "foreign_key")]⟩
  else base

/-- The production replacement messages for 4xx statuses
(`genericMessages[status] || 'Request failed'`). -/
def genericMessage (status : Nat) : String :=
  if status = 400 then "Invalid request data"
  else if status = 401 then "Authentication required"
  else if status = 403 then "Access forbidden"
  else if status = 404 then "Resource not found"
  else if status = 409 then "Resource conflict - unable to process request"
  else if status = 422 then "Unable to process request"
  else "Request failed"

/-- The JSON body sent to the client (`ErrorResponseDto`; `timestamp` omitted). -/
structure ErrorResponseDto where
  statusCode : Nat
  error : String
  message : String
  path : String
  details : Option (List (String × String))
deriving DecidableEq, Repr

/-- Severity of the internal log call. -/
inductive LogLevel where
  | error
  | warn
deriving DecidableEq, Repr

/-- The internal log record the filter always emits. -/
structure LogRecord where
  level : LogLevel
  message : String
  statusCode : Nat
  path : String
  method : String
  errorCode : String
  details : Option (List (String × String))
  exposedToClient : Bool
deriving DecidableEq, Repr

/-- `HttpExceptionFilter.catch`: status, extraction, production sanitization of
4xx messages/details, the client response, and the internal log record. -/
def filterCatch (exposeErrorDetails : Bool) (exn : Exn) (url method : String) :
    ErrorResponseDto × LogRecord :=
  let status := statusOf exn
  let info := extractError exn
  let sanitizedMessage :=
    if exposeErrorDetails = false ∧ status < 500 then genericMessage status
    else info.errorMessage
  let sanitizedDetails :=
    if exposeErrorDetails = false ∧ status < 500 then none
    else info.errorDetails
  (⟨status, info.errorCode, sanitizedMessage, url, sanitizedDetails⟩,
   ⟨if 500 ≤ status then .error else .warn, info.errorMessage, status, url, method,
    info.errorCode, info.errorDetails, exposeErrorDetails⟩)

end HttpExceptionFilter

/-- The exception a `ServiceErr` reaches the filter as: `NotFoundException`s are
`HttpException`s with the NestJS object response; uncaught Prisma errors are
plain objects with a `code` and `meta.target`. -/
def exnOfServiceErr : ServiceErr → Exn
  | .notFound msg =>
    { isHttpException := true, status := 404,
      response := some (.obj { error := some "Not Found", message := some msg }),
      message := some msg, name := some "NotFoundException" }
  | .dao (.uniqueViolation f) =>
    { code := some "P2002", metaTarget := [f],
      message := some "Unique constraint failed",
      name := some "PrismaClientKnownRequestError" }
  | .dao .recordNotFound =>
    { code := some "P2025", message := some "Record to update not found",
      name := some "PrismaClientKnownRequestError" }

/-! ## A decoder for the serialized key pre-image

`scanStr`/`parseArr` form a left inverse of `serialL` as a proof artifact: the
round trip establishes that the canonical serialization is injective on
`(opName, params)` pairs, which is what makes distinct inputs produce distinct
digest pre-images. -/

/-- Value of a lowercase hex digit. -/
def hexVal (c : Char) : Nat :=
  if c = '0' then 0 else if c = '1' then 1 else if c = '2' then 2
  else if c = '3' then 3 else if c = '4' then 4 else if c = '5' then 5
  else if c = '6' then 6 else if c = '7' then 7 else if c = '8' then 8
  else if c = '9' then 9 else if c = 'a' then 10 else if c = 'b' then 11
  else if c = 'c' then 12 else if c = 'd' then 13 else if c = 'e' then 14
  else if c = 'f' then 15 else 0

/-- Inverse of the named JSON escapes; `\"` and `\\` decode to themselves. -/
def unescChar (e : Char) : Char :=
  if e = 'b' then '\x08'
  else if e = 't' then '\x09'
  else if e = 'n' then '\x0a'
  else if e = 'f' then '\x0c'
  else if e = 'r' then '\x0d'
  else e

/-- Scan a JSON string body up to its closing quote, undoing the escapes. -/
def scanStr : List Char → Option (List Char × List Char)
  | [] => none
  | c :: rest =>
    if c = '"' then some ([], rest)
    else if c = '\\' then
      match rest with
      | [] => none
      | e :: rest2 =>
        if e = 'u' then
          match rest2 with
          | h1 :: h2 :: h3 :: h4 :: rest3 =>
            match scanStr rest3 with
            | none => none
            | some p =>
              some (Char.ofNat (((hexVal h1 * 16 + hexVal h2) * 16 + hexVal h3) * 16
                + hexVal h4) :: p.1, p.2)
          | _ => none
        else
          match scanStr rest2 with
          | none => none
          | some p => some (unescChar e :: p.1, p.2)
    else
      match scanStr rest with
      | none => none
      | some p => some (c :: p.1, p.2)

/-- After one array item: `]` ends the array, `,` followed by a string continues. -/
def parseAfterItem : Nat → List Char → Option (List (List Char) × List Char)
  | _, [] => none
  | fuel, c :: rest =>
    if c = ']' then some ([], rest)
    else if c = ',' then
      match fuel, rest with
      | f + 1, c2 :: rest2 =>
        if c2 = '"' then
          match scanStr rest2 with
          | none => none
          | some p =>
            match parseAfterItem f p.2 with
            | none => none
            | some q => some (p.1 :: q.1, q.2)
        else none
      | _, _ => none
    else none

/-- Parse a `[`-opened array of strings. -/
def parseArr (fuel : Nat) : List Char → Option (List (List Char) × List Char)
  | [] => none
  | c :: rest =>
    if c = '[' then
      match rest with
      | [] => none
      | c2 :: rest2 =>
        if c2 = ']' then some ([], rest2)
        else if c2 = '"' then
          match scanStr rest2 with
          | none => none
          | some p =>
            match parseAfterItem fuel p.2 with
            | none => none
            | some q => some (p.1 :: q.1, q.2)
        else none
    else none

/-! ## Remaining definitions: event predicates, spec-side formulas, fixtures -/

/-- Is the event a cache `del`? -/
def Event.isCacheDel : Event → Bool
  | .cacheDel _ => true
  | _ => false

/-- Is the event a cache `set`? -/
def Event.isCacheSet : Event → Bool
  | .cacheSet _ _ => true
  | _ => false

/-- The sixteen characters a `digest('hex')` output may contain. -/
def lowercaseHexDigits : List Char :=
  ("0123456789abcdef").data

/-- The spec's rounding to two decimals: `round(x*100)/100`. -/
def specRound2 (x : ℚ) : ℚ := (round (x * 100) : ℚ) / 100

/-- The spec's hit-rate formula: `round(N/(N+M)*100, 2)`, `0` when `N+M = 0`. -/
def specHitRate (hits misses : Nat) : ℚ :=
  if hits + misses = 0 then 0
  else specRound2 ((hits : ℚ) / ((hits + misses : Nat) : ℚ) * 100)

/-- The structural invariant of the metrics state: per endpoint key, the stored
sample count equals the stored request count, and errors never exceed requests. -/
def MetricsService.Inv (m : Metrics) : Prop :=
  ∀ k, (m.responseTimes k).length = m.requestCounts k
    ∧ m.errorCounts k ≤ m.requestCounts k

/-! Concrete fixtures for the witness theorems. -/

/-- A first concrete row. -/
def pessoaA : Pessoa :=
  ⟨"id-1", "Joao Silva", 30, "123.456.789-00", "Rua A, 123", "a@x.com",
   "(11) 90000-0001", 0, 0⟩

/-- A second concrete row with distinct unique fields. -/
def pessoaB : Pessoa :=
  ⟨"id-2", "Maria Souza", 25, "987.654.321-00", "Rua B, 456", "b@x.com",
   "(11) 90000-0002", 0, 0⟩

/-- A fresh metrics state. -/
def metrics0 : Metrics := MetricsService.init 0

/-- Empty cache over a two-row table. -/
def sysDb : Sys := ⟨[], [pessoaA, pessoaB], metrics0⟩

/-- A state whose cache already holds `pessoaA` under its email key. -/
def sysHit : Sys :=
  ⟨[(CacheService.generateKey "findByEmail" ["a@x.com"], pessoaA, 300000)],
   [pessoaA, pessoaB], metrics0⟩

/-- A creation payload with fresh unique fields. -/
def createInputC : PessoaDao.PessoaCreateInput :=
  ⟨"Carlos Lima", 40, "111.222.333-44", "Rua C, 789", "c@x.com", "(11) 90000-0003"⟩

/-- A creation payload whose email collides with `pessoaA` (cpf/telefone fresh). -/
def createInputDupEmail : PessoaDao.PessoaCreateInput :=
  ⟨"Davi Alves", 22, "555.666.777-88", "Rua D, 12", "a@x.com", "(11) 90000-0004"⟩

/-- An age-only partial update (email/telefone unchanged). -/
def updIdadeOnly : PessoaUpdateInput := { idade := some 31 }

/-- A partial update colliding with `pessoaB`'s email. -/
def updEmailDup : PessoaUpdateInput := { email := some "b@x.com" }

/-! ## Support lemmas

Round trip of the decoder over the serializer (hence injectivity of the key
pre-image), structural facts about the SHA-256 output, and the pigeonhole
collision witness for the finite key space. -/


theorem hexVal_hexChar : ∀ n : Nat, n < 16 → hexVal (hexChar n) = n := by decide

theorem scanStr_quote (t : List Char) : scanStr ('"' :: t) = some ([], t) := by
  rw [scanStr.eq_def]
  simp

theorem scanStr_u (d1 d2 d3 d4 : Char) (rest : List Char) :
    scanStr ('\\' :: 'u' :: d1 :: d2 :: d3 :: d4 :: rest) =
      match scanStr rest with
      | none => none
      | some p =>
        some (Char.ofNat (((hexVal d1 * 16 + hexVal d2) * 16 + hexVal d3) * 16
          + hexVal d4) :: p.1, p.2) := rfl

theorem scanStr_esc (e : Char) (rest : List Char) (hu : ¬e = 'u') :
    scanStr ('\\' :: e :: rest) =
      match scanStr rest with
      | none => none
      | some p => some (unescChar e :: p.1, p.2) := by
  rw [scanStr.eq_def]
  simp only [reduceIte]
  rw [if_neg (show ¬('\\' : Char) = '"' by decide), if_neg hu]

theorem scanStr_other (c : Char) (rest : List Char) (h1 : ¬c = '"') (h2 : ¬c = '\\') :
    scanStr (c :: rest) =
      match scanStr rest with
      | none => none
      | some p => some (c :: p.1, p.2) := by
  rw [scanStr.eq_def]
  simp only []
  rw [if_neg h1, if_neg h2]

theorem scanStr_escape (s t : List Char) :
    scanStr (escapeStr s ++ '"' :: t) = some (s, t) := by
  induction s with
  | nil => simp [escapeStr, scanStr_quote]
  | cons c s ih =>
    have hstep : escapeStr (c :: s) = escapeChar c ++ escapeStr s := by
      simp [escapeStr]
    rw [hstep, List.append_assoc]
    by_cases h1 : c = '"'
    · subst h1
      rw [escapeChar, if_pos rfl]
      simp only [List.cons_append, List.nil_append]
      rw [scanStr_esc _ _ (by decide), ih]
      rfl
    · by_cases h2 : c = '\\'
      · subst h2
        rw [escapeChar, if_neg (by decide), if_pos rfl]
        simp only [List.cons_append, List.nil_append]
        rw [scanStr_esc _ _ (by decide), ih]
        rfl
      · by_cases h3 : c = '\x08'
        · subst h3
          rw [escapeChar, if_neg (by decide), if_neg (by decide), if_pos rfl]
          simp only [List.cons_append, List.nil_append]
          rw [scanStr_esc _ _ (by decide), ih]
          rfl
        · by_cases h4 : c = '\x09'
          · subst h4
            rw [escapeChar, if_neg (by decide), if_neg (by decide), if_neg (by decide),
              if_pos rfl]
            simp only [List.cons_append, List.nil_append]
            rw [scanStr_esc _ _ (by decide), ih]
            rfl
          · by_cases h5 : c = '\x0a'
            · subst h5
              rw [escapeChar, if_neg (by decide), if_neg (by decide), if_neg (by decide),
                if_neg (by decide), if_pos rfl]
              simp only [List.cons_append, List.nil_append]
              rw [scanStr_esc _ _ (by decide), ih]
              rfl
            · by_cases h6 : c = '\x0c'
              · subst h6
                rw [escapeChar, if_neg (by decide), if_neg (by decide), if_neg (by decide),
                  if_neg (by decide), if_neg (by decide), if_pos rfl]
                simp only [List.cons_append, List.nil_append]
                rw [scanStr_esc _ _ (by decide), ih]
                rfl
              · by_cases h7 : c = '\x0d'
                · subst h7
                  rw [escapeChar, if_neg (by decide), if_neg (by decide),
                    if_neg (by decide), if_neg (by decide), if_neg (by decide),
                    if_neg (by decide), if_pos rfl]
                  simp only [List.cons_append, List.nil_append]
                  rw [scanStr_esc _ _ (by decide), ih]
                  rfl
                · by_cases h8 : c.toNat < 32
                  · rw [escapeChar, if_neg h1, if_neg h2, if_neg h3, if_neg h4,
                      if_neg h5, if_neg h6, if_neg h7, if_pos h8]
                    simp only [List.cons_append, List.nil_append]
                    rw [scanStr_u, ih]
                    have hhi : hexVal (hexChar (c.toNat / 16)) = c.toNat / 16 :=
                      hexVal_hexChar _ (by omega)
                    have hlo : hexVal (hexChar (c.toNat % 16)) = c.toNat % 16 :=
                      hexVal_hexChar _ (by omega)
                    have h0 : hexVal '0' = 0 := by decide
                    simp only [hhi, hlo, h0]
                    rw [show ((0 * 16 + 0) * 16 + c.toNat / 16) * 16 + c.toNat % 16
                      = c.toNat by omega]
                    simp
                  · rw [escapeChar, if_neg h1, if_neg h2, if_neg h3, if_neg h4,
                      if_neg h5, if_neg h6, if_neg h7, if_neg h8]
                    simp only [List.cons_append, List.nil_append]
                    rw [scanStr_other _ _ h1 h2, ih]

theorem quoteL_append (q x : List Char) :
    quoteL q ++ x = '"' :: (escapeStr q ++ '"' :: x) := by
  simp [quoteL]

theorem parseAfterItem_rbracket (fuel : Nat) (r : List Char) :
    parseAfterItem fuel (']' :: r) = some ([], r) := by
  rw [parseAfterItem.eq_def]
  simp

theorem parseAfterItem_comma_quote (f : Nat) (rest2 : List Char) :
    parseAfterItem (f + 1) (',' :: '"' :: rest2) =
      match scanStr rest2 with
      | none => none
      | some p =>
        match parseAfterItem f p.2 with
        | none => none
        | some q => some (p.1 :: q.1, q.2) := by
  rw [parseAfterItem.eq_def]
  simp

theorem parseAfterItem_items (ps : List (List Char)) :
    ∀ (fuel : Nat) (r : List Char), ps.length ≤ fuel →
      parseAfterItem fuel (ps.flatMap (fun q => ',' :: quoteL q) ++ ']' :: r)
        = some (ps, r) := by
  induction ps with
  | nil => intro fuel r _; simp [parseAfterItem_rbracket]
  | cons q qs ih =>
    intro fuel r hf
    cases fuel with
    | zero => simp at hf
    | succ f =>
      simp only [List.flatMap_cons, List.cons_append, List.append_assoc]
      rw [quoteL_append, parseAfterItem_comma_quote, scanStr_escape]
      simp only []
      rw [ih f r (by simp at hf; omega)]

theorem parseArr_empty (fuel : Nat) (r : List Char) :
    parseArr fuel ('[' :: ']' :: r) = some ([], r) := by
  rw [parseArr.eq_def]
  simp

theorem parseArr_quote (fuel : Nat) (rest2 : List Char) :
    parseArr fuel ('[' :: '"' :: rest2) =
      match scanStr rest2 with
      | none => none
      | some p =>
        match parseAfterItem fuel p.2 with
        | none => none
        | some q => some (p.1 :: q.1, q.2) := by
  rw [parseArr.eq_def]
  simp

theorem parseArr_items (ps : List (List Char)) (fuel : Nat) (r : List Char)
    (hf : ps.length ≤ fuel) :
    parseArr fuel ('[' :: (itemsL ps ++ ']' :: r)) = some (ps, r) := by
  cases ps with
  | nil => simpa [itemsL] using parseArr_empty fuel r
  | cons q qs =>
    simp only [itemsL, List.cons_append, List.append_assoc]
    rw [quoteL_append, parseArr_quote, scanStr_escape]
    simp only []
    rw [parseAfterItem_items qs fuel r (by simp at hf; omega)]

theorem serialL_inj {op1 op2 : List Char} {ps1 ps2 : List (List Char)}
    (h : serialL op1 ps1 = serialL op2 ps2) : op1 = op2 ∧ ps1 = ps2 := by
  simp only [serialL, List.append_assoc, List.cons_append] at h
  rw [quoteL_append, quoteL_append] at h
  simp only [List.nil_append, List.cons.injEq, true_and] at h
  have h2 := congrArg scanStr h
  rw [scanStr_escape, scanStr_escape] at h2
  rw [Option.some.injEq, Prod.mk.injEq] at h2
  refine ⟨h2.1, ?_⟩
  have h3 := h2.2
  simp only [List.cons.injEq, true_and] at h3
  have h4 := congrArg (fun l => parseArr (ps1.length + ps2.length) ('[' :: l)) h3
  simp only [] at h4
  rw [parseArr_items _ _ _ (by omega), parseArr_items _ _ _ (by omega)] at h4
  rw [Option.some.injEq, Prod.mk.injEq] at h4
  exact h4.1

theorem serializeKeyInput_inj {op1 op2 : String} {ps1 ps2 : List String}
    (h : serializeKeyInput op1 ps1 = serializeKeyInput op2 ps2) :
    op1 = op2 ∧ ps1 = ps2 := by
  unfold serializeKeyInput at h
  have hdata : serialL op1.data (ps1.map String.data)
      = serialL op2.data (ps2.map String.data) := congrArg String.data h
  obtain ⟨h1, h2⟩ := serialL_inj hdata
  constructor
  · cases op1; cases op2; exact congrArg String.mk h1
  · have hinj : Function.Injective String.data := by
      intro a b hab
      cases a; cases b
      exact congrArg String.mk hab
    exact List.map_injective_iff.mpr hinj h2

theorem sha256_length (msg : List Nat) : (sha256 msg).length = 32 := by
  simp [sha256, stateBytes, wordBytes]

theorem sha256_bytes_lt (msg : List Nat) : ∀ b ∈ sha256 msg, b < 256 := by
  intro b hb
  simp [sha256, stateBytes, wordBytes] at hb
  omega

theorem hexEncode_length (l : List Nat) : (hexEncode l).length = 2 * l.length := by
  induction l with
  | nil => simp [hexEncode]
  | cons b l ih => simp [hexEncode] at ih ⊢; omega

theorem hexChar_mem (n : Nat) : hexChar n ∈ lowercaseHexDigits := by
  unfold hexChar
  split <;> decide

theorem hexEncode_chars (l : List Nat) : ∀ c ∈ hexEncode l, c ∈ lowercaseHexDigits := by
  intro c hc
  simp [hexEncode] at hc
  obtain ⟨b, _, hcc⟩ := hc
  rcases hcc with h | h <;> subst h <;> exact hexChar_mem _

theorem generateKey_length (opName : String) (params : List String) :
    (CacheService.generateKey opName params).length = 64 := by
  unfold CacheService.generateKey
  show (hexEncode _).length = 64
  rw [hexEncode_length, sha256_length]

theorem generateKey_chars (opName : String) (params : List String) :
    ∀ c ∈ (CacheService.generateKey opName params).data, c ∈ lowercaseHexDigits := by
  intro c hc
  exact hexEncode_chars _ c hc

theorem generateKey_collision :
    ∃ p1 p2 : List String, p1 ≠ p2 ∧
      CacheService.generateKey "findByEmail" p1
        = CacheService.generateKey "findByEmail" p2 := by
  haveI : Infinite (List String) :=
    Infinite.of_injective (fun n : ℕ => List.replicate n "")
      (by intro a b hab; simpa using congrArg List.length hab)
  have hlen : ∀ p : List String,
      (sha256 (utf8Bytes (serializeKeyInput "findByEmail" p))).length = 32 :=
    fun p => sha256_length _
  let f : List String → (Fin 32 → Fin 256) := fun p i =>
    ⟨(sha256 (utf8Bytes (serializeKeyInput "findByEmail" p))).getD i 0, by
      have h1 : (i : Nat) < (sha256 (utf8Bytes (serializeKeyInput "findByEmail" p))).length := by
        rw [hlen p]; exact i.isLt
      rw [List.getD_eq_getElem _ _ h1]
      exact sha256_bytes_lt _ _ (List.getElem_mem h1)⟩
  obtain ⟨p1, p2, hne, hfe⟩ := Finite.exists_ne_map_eq_of_infinite f
  refine ⟨p1, p2, hne, ?_⟩
  have hd : sha256 (utf8Bytes (serializeKeyInput "findByEmail" p1))
      = sha256 (utf8Bytes (serializeKeyInput "findByEmail" p2)) := by
    apply List.ext_getElem
    · rw [hlen p1, hlen p2]
    · intro i hi1 hi2
      have hfi := congrArg Fin.val (congrFun hfe ⟨i, by rw [hlen p1] at hi1; exact hi1⟩)
      simpa [f, List.getD_eq_getElem, hi1, hi2] using hfi
  unfold CacheService.generateKey
  rw [hd]

/-! ## Behavior of the cache-fronted lookups -/

theorem cacheStoreSet_lookup (c : List (String × Pessoa × Nat)) (key : String)
    (v : Pessoa) (ttl : Nat) :
    cacheLookup (cacheStoreSet c key v ttl) key = some v := by
  simp [cacheStoreSet, cacheLookup]

theorem findByEmail_hit (s : Sys) (email : String) (p : Pessoa)
    (hhit : cacheLookup s.cache (CacheService.generateKey "findByEmail" [email]) = some p) :
    PessoaService.findByEmail s email =
      (Except.ok p, { s with metrics := MetricsService.incrementCacheHit s.metrics },
       [Event.cacheGet (CacheService.generateKey "findByEmail" [email]) true]) := by
  unfold PessoaService.findByEmail
  simp [CacheService.get, hhit]

theorem findByEmail_miss_found (s : Sys) (email : String) (row : Pessoa)
    (hmiss : cacheLookup s.cache (CacheService.generateKey "findByEmail" [email]) = none)
    (hrow : s.db.find? (fun q => q.email == email) = some row) :
    PessoaService.findByEmail s email =
      (Except.ok row,
       { s with
          cache := cacheStoreSet s.cache (CacheService.generateKey "findByEmail" [email])
            row 300000,
          metrics := MetricsService.incrementCacheMiss s.metrics },
       [Event.cacheGet (CacheService.generateKey "findByEmail" [email]) false,
        Event.daoFindByEmail email,
        Event.cacheSet (CacheService.generateKey "findByEmail" [email]) 300000]) := by
  unfold PessoaService.findByEmail
  simp [CacheService.get, hmiss, PessoaDao.findByEmail, hrow, CacheService.set,
    PessoaService.CACHE_TTL]

theorem findByEmail_miss_absent (s : Sys) (email : String)
    (hmiss : cacheLookup s.cache (CacheService.generateKey "findByEmail" [email]) = none)
    (hnone : s.db.find? (fun q => q.email == email) = none) :
    PessoaService.findByEmail s email =
      (Except.error (ServiceErr.notFound s!"Pessoa with email \"{email}\" not found"),
       { s with metrics := MetricsService.incrementCacheMiss s.metrics },
       [Event.cacheGet (CacheService.generateKey "findByEmail" [email]) false,
        Event.daoFindByEmail email]) := by
  unfold PessoaService.findByEmail
  simp [CacheService.get, hmiss, PessoaDao.findByEmail, hnone]

theorem findByTelefone_hit (s : Sys) (telefone : String) (p : Pessoa)
    (hhit : cacheLookup s.cache
      (CacheService.generateKey "findByTelefone" [telefone]) = some p) :
    PessoaService.findByTelefone s telefone =
      (Except.ok p, { s with metrics := MetricsService.incrementCacheHit s.metrics },
       [Event.cacheGet (CacheService.generateKey "findByTelefone" [telefone]) true]) := by
  unfold PessoaService.findByTelefone
  simp [CacheService.get, hhit]

theorem findByTelefone_miss_found (s : Sys) (telefone : String) (row : Pessoa)
    (hmiss : cacheLookup s.cache
      (CacheService.generateKey "findByTelefone" [telefone]) = none)
    (hrow : s.db.find? (fun q => q.telefone == telefone) = some row) :
    PessoaService.findByTelefone s telefone =
      (Except.ok row,
       { s with
          cache := cacheStoreSet s.cache
            (CacheService.generateKey "findByTelefone" [telefone]) row 300000,
          metrics := MetricsService.incrementCacheMiss s.metrics },
       [Event.cacheGet (CacheService.generateKey "findByTelefone" [telefone]) false,
        Event.daoFindByTelefone telefone,
        Event.cacheSet (CacheService.generateKey "findByTelefone" [telefone]) 300000]) := by
  unfold PessoaService.findByTelefone
  simp [CacheService.get, hmiss, PessoaDao.findByTelefone, hrow, CacheService.set,
    PessoaService.CACHE_TTL]

theorem findByTelefone_miss_absent (s : Sys) (telefone : String)
    (hmiss : cacheLookup s.cache
      (CacheService.generateKey "findByTelefone" [telefone]) = none)
    (hnone : s.db.find? (fun q => q.telefone == telefone) = none) :
    PessoaService.findByTelefone s telefone =
      (Except.error (ServiceErr.notFound
         s!"Pessoa with telefone \"{telefone}\" not found"),
       { s with metrics := MetricsService.incrementCacheMiss s.metrics },
       [Event.cacheGet (CacheService.generateKey "findByTelefone" [telefone]) false,
        Event.daoFindByTelefone telefone]) := by
  unfold PessoaService.findByTelefone
  simp [CacheService.get, hmiss, PessoaDao.findByTelefone, hnone]

/-! ## The claims -/

/-- Claim C1: on an update whose pre-read finds the old row and whose DAO update
succeeds, exactly four cache deletions run after the DAO update, deriving, in
order, (findByEmail, old email), (findByTelefone, old telefone),
(findByEmail, new email), (findByTelefone, new telefone); an unchanged field
makes its old and new derivations the same key, collapsing the four logical
deletions onto two keys each deleted twice, and the email-key and telefone-key
digest pre-images are always distinct (their absolute distinctness as 64-hex
digests is SHA-256 collision-resistance, cf. the C4 correction). -/
theorem C1_update_invalidation (s : Sys) (id : String) (data : PessoaUpdateInput)
    (old : Pessoa)
    (hold : s.db.find? (fun p => p.id == id) = some old)
    (hcpf : s.db.any (fun p => p.id != id && p.cpf == (applyUpdate old data).cpf) = false)
    (hemail : s.db.any
      (fun p => p.id != id && p.email == (applyUpdate old data).email) = false)
    (htel : s.db.any
      (fun p => p.id != id && p.telefone == (applyUpdate old data).telefone) = false) :
    (PessoaService.update s id data).2.2 =
      [Event.daoGetById id, Event.daoUpdate id,
       Event.cacheDel (CacheService.generateKey "findByEmail" [old.email]),
       Event.cacheDel (CacheService.generateKey "findByTelefone" [old.telefone]),
       Event.cacheDel
         (CacheService.generateKey "findByEmail" [(applyUpdate old data).email]),
       Event.cacheDel
         (CacheService.generateKey "findByTelefone" [(applyUpdate old data).telefone])]
    ∧ (PessoaService.update s id data).2.2.filterMap Event.delKey? =
      [CacheService.generateKey "findByEmail" [old.email],
       CacheService.generateKey "findByTelefone" [old.telefone],
       CacheService.generateKey "findByEmail" [(applyUpdate old data).email],
       CacheService.generateKey "findByTelefone" [(applyUpdate old data).telefone]]
    ∧ ((applyUpdate old data).email = old.email →
        CacheService.generateKey "findByEmail" [(applyUpdate old data).email]
          = CacheService.generateKey "findByEmail" [old.email])
    ∧ ((applyUpdate old data).telefone = old.telefone →
        CacheService.generateKey "findByTelefone" [(applyUpdate old data).telefone]
          = CacheService.generateKey "findByTelefone" [old.telefone])
    ∧ (∀ x y : String,
        serializeKeyInput "findByEmail" [x] ≠ serializeKeyInput "findByTelefone" [y]) := by
  have htr : (PessoaService.update s id data).2.2 =
      [Event.daoGetById id, Event.daoUpdate id,
       Event.cacheDel (CacheService.generateKey "findByEmail" [old.email]),
       Event.cacheDel (CacheService.generateKey "findByTelefone" [old.telefone]),
       Event.cacheDel
         (CacheService.generateKey "findByEmail" [(applyUpdate old data).email]),
       Event.cacheDel
         (CacheService.generateKey "findByTelefone" [(applyUpdate old data).telefone])] := by
    unfold PessoaService.update
    simp [PessoaDao.getById, hold, PessoaDao.update, hcpf, hemail, htel,
      PessoaService.evictCacheForPessoa, CacheService.del]
  refine ⟨htr, by rw [htr]; simp [Event.delKey?], fun h => by rw [h], fun h => by rw [h], ?_⟩
  intro x y hser
  have := (serializeKeyInput_inj hser).1
  simp at this

/-- Witness for C1: an age-only update of the first fixture row fires deletions
for two distinct keys, each twice. -/
theorem C1_witness :
    (PessoaService.update sysDb "id-1" updIdadeOnly).2.2.filterMap Event.delKey? =
      [CacheService.generateKey "findByEmail" [pessoaA.email],
       CacheService.generateKey "findByTelefone" [pessoaA.telefone],
       CacheService.generateKey "findByEmail" [pessoaA.email],
       CacheService.generateKey "findByTelefone" [pessoaA.telefone]]
    ∧ serializeKeyInput "findByEmail" [pessoaA.email]
        ≠ serializeKeyInput "findByTelefone" [pessoaA.telefone] := by
  have h := C1_update_invalidation sysDb "id-1" updIdadeOnly pessoaA
    (by decide) (by decide) (by decide) (by decide)
  have he : (applyUpdate pessoaA updIdadeOnly).email = pessoaA.email := by decide
  have ht : (applyUpdate pessoaA updIdadeOnly).telefone = pessoaA.telefone := by decide
  constructor
  · rw [h.2.1, he, ht]
  · exact h.2.2.2.2 pessoaA.email pessoaA.telefone

/-- Claim C2: the cache-fronted lookups are read-through.  A present cached value
is returned at once with no DAO event; on a miss with a row present, exactly one
DAO read runs and the row is stored under the derived key with the default TTL
(300000 ms) before being returned, and is then found in the cache. -/
theorem C2_read_through (s : Sys) (email telefone : String) :
    (∀ p, cacheLookup s.cache (CacheService.generateKey "findByEmail" [email]) = some p →
      PessoaService.findByEmail s email =
        (Except.ok p, { s with metrics := MetricsService.incrementCacheHit s.metrics },
         [Event.cacheGet (CacheService.generateKey "findByEmail" [email]) true]))
    ∧ (∀ row,
        cacheLookup s.cache (CacheService.generateKey "findByEmail" [email]) = none →
        s.db.find? (fun q => q.email == email) = some row →
        PessoaService.findByEmail s email =
          (Except.ok row,
           { s with
              cache := cacheStoreSet s.cache
                (CacheService.generateKey "findByEmail" [email]) row 300000,
              metrics := MetricsService.incrementCacheMiss s.metrics },
           [Event.cacheGet (CacheService.generateKey "findByEmail" [email]) false,
            Event.daoFindByEmail email,
            Event.cacheSet (CacheService.generateKey "findByEmail" [email]) 300000])
        ∧ cacheLookup (PessoaService.findByEmail s email).2.1.cache
            (CacheService.generateKey "findByEmail" [email]) = some row)
    ∧ (∀ p, cacheLookup s.cache
          (CacheService.generateKey "findByTelefone" [telefone]) = some p →
      PessoaService.findByTelefone s telefone =
        (Except.ok p, { s with metrics := MetricsService.incrementCacheHit s.metrics },
         [Event.cacheGet (CacheService.generateKey "findByTelefone" [telefone]) true]))
    ∧ (∀ row,
        cacheLookup s.cache (CacheService.generateKey "findByTelefone" [telefone]) = none →
        s.db.find? (fun q => q.telefone == telefone) = some row →
        PessoaService.findByTelefone s telefone =
          (Except.ok row,
           { s with
              cache := cacheStoreSet s.cache
                (CacheService.generateKey "findByTelefone" [telefone]) row 300000,
              metrics := MetricsService.incrementCacheMiss s.metrics },
           [Event.cacheGet (CacheService.generateKey "findByTelefone" [telefone]) false,
            Event.daoFindByTelefone telefone,
            Event.cacheSet (CacheService.generateKey "findByTelefone" [telefone]) 300000])
        ∧ cacheLookup (PessoaService.findByTelefone s telefone).2.1.cache
            (CacheService.generateKey "findByTelefone" [telefone]) = some row) := by
  refine ⟨fun p hp => findByEmail_hit s email p hp, ?_,
    fun p hp => findByTelefone_hit s telefone p hp, ?_⟩
  · intro row hm hr
    have he := findByEmail_miss_found s email row hm hr
    exact ⟨he, by rw [he]; exact cacheStoreSet_lookup _ _ _ _⟩
  · intro row hm hr
    have ht := findByTelefone_miss_found s telefone row hm hr
    exact ⟨ht, by rw [ht]; exact cacheStoreSet_lookup _ _ _ _⟩

/-- Witness for C2: a hit on the pre-populated fixture performs no DAO call; a
miss over the empty cache returns the row and stores it under the derived key. -/
theorem C2_witness :
    (PessoaService.findByEmail sysHit "a@x.com").1 = Except.ok pessoaA
    ∧ (PessoaService.findByEmail sysHit "a@x.com").2.2.filter
        (fun ev => ev.isDaoCall) = []
    ∧ (PessoaService.findByEmail sysDb "a@x.com").1 = Except.ok pessoaA
    ∧ cacheLookup (PessoaService.findByEmail sysDb "a@x.com").2.1.cache
        (CacheService.generateKey "findByEmail" ["a@x.com"]) = some pessoaA := by
  have h1 := (C2_read_through sysHit "a@x.com" "t").1 pessoaA
    (by simp [sysHit, cacheLookup])
  have h2 := (C2_read_through sysDb "a@x.com" "t").2.1 pessoaA
    (by simp [sysDb, cacheLookup]) (by decide)
  exact ⟨by rw [h1], by rw [h1]; simp [Event.isDaoCall], by rw [h2.1], h2.2⟩

/-- Claim C3: a cache miss with no matching row raises the not-found domain error
and performs no cache set — the cache is unchanged — so a second identical lookup
also performs exactly one DAO read. -/
theorem C3_negative_not_cached (s : Sys) (email telefone : String) :
    (cacheLookup s.cache (CacheService.generateKey "findByEmail" [email]) = none →
      s.db.find? (fun q => q.email == email) = none →
      PessoaService.findByEmail s email =
        (Except.error (ServiceErr.notFound s!"Pessoa with email \"{email}\" not found"),
         { s with metrics := MetricsService.incrementCacheMiss s.metrics },
         [Event.cacheGet (CacheService.generateKey "findByEmail" [email]) false,
          Event.daoFindByEmail email])
      ∧ (PessoaService.findByEmail s email).2.1.cache = s.cache
      ∧ (PessoaService.findByEmail s email).2.2.filter (fun ev => ev.isCacheSet) = []
      ∧ (PessoaService.findByEmail s email).2.2.countP (fun ev => ev.isDaoCall) = 1
      ∧ (PessoaService.findByEmail
            (PessoaService.findByEmail s email).2.1 email).2.2.countP
          (fun ev => ev.isDaoCall) = 1)
    ∧ (cacheLookup s.cache (CacheService.generateKey "findByTelefone" [telefone]) = none →
      s.db.find? (fun q => q.telefone == telefone) = none →
      PessoaService.findByTelefone s telefone =
        (Except.error (ServiceErr.notFound
           s!"Pessoa with telefone \"{telefone}\" not found"),
         { s with metrics := MetricsService.incrementCacheMiss s.metrics },
         [Event.cacheGet (CacheService.generateKey "findByTelefone" [telefone]) false,
          Event.daoFindByTelefone telefone])
      ∧ (PessoaService.findByTelefone s telefone).2.1.cache = s.cache
      ∧ (PessoaService.findByTelefone s telefone).2.2.filter
          (fun ev => ev.isCacheSet) = []
      ∧ (PessoaService.findByTelefone s telefone).2.2.countP
          (fun ev => ev.isDaoCall) = 1
      ∧ (PessoaService.findByTelefone
            (PessoaService.findByTelefone s telefone).2.1 telefone).2.2.countP
          (fun ev => ev.isDaoCall) = 1) := by
  constructor
  · intro hm hn
    have e1 := findByEmail_miss_absent s email hm hn
    have e2 := findByEmail_miss_absent
      { s with metrics := MetricsService.incrementCacheMiss s.metrics } email hm hn
    refine ⟨e1, by rw [e1], by rw [e1]; simp [Event.isCacheSet],
      by rw [e1]; simp [Event.isDaoCall], ?_⟩
    rw [e1]
    simp only []
    rw [e2]
    simp [Event.isDaoCall]
  · intro hm hn
    have e1 := findByTelefone_miss_absent s telefone hm hn
    have e2 := findByTelefone_miss_absent
      { s with metrics := MetricsService.incrementCacheMiss s.metrics } telefone hm hn
    refine ⟨e1, by rw [e1], by rw [e1]; simp [Event.isCacheSet],
      by rw [e1]; simp [Event.isDaoCall], ?_⟩
    rw [e1]
    simp only []
    rw [e2]
    simp [Event.isDaoCall]

/-- Witness for C3: looking up an absent email over the fixture table errors,
leaves the cache empty, and a repeat lookup hits the DAO again. -/
theorem C3_witness :
    (PessoaService.findByEmail sysDb "absent@x.com").1
      = Except.error (ServiceErr.notFound
          "Pessoa with email \"absent@x.com\" not found")
    ∧ (PessoaService.findByEmail sysDb "absent@x.com").2.1.cache = sysDb.cache
    ∧ (PessoaService.findByEmail sysDb "absent@x.com").2.2.filter
        (fun ev => ev.isCacheSet) = []
    ∧ (PessoaService.findByEmail
          (PessoaService.findByEmail sysDb "absent@x.com").2.1 "absent@x.com").2.2.countP
        (fun ev => ev.isDaoCall) = 1 := by
  have h := (C3_negative_not_cached sysDb "absent@x.com" "t").1
    (by simp [sysDb, cacheLookup]) (by decide)
  exact ⟨by rw [h.1]; rfl, h.2.1, h.2.2.1, h.2.2.2.2⟩

/-- Counterexample for C4: the claimed absolute collision-freedom of
`generateKey` is false — the key space of fixed-length digests is finite while
the input space is infinite, so some two distinct parameter lists share a key
(pigeonhole; no concrete collision is exhibitable, but the universal claim is
refuted). -/
theorem C4_counterexample :
    ¬ ∀ (opName : String) (p1 p2 : List String), p1 ≠ p2 →
        CacheService.generateKey opName p1 ≠ CacheService.generateKey opName p2 := by
  intro hclaim
  obtain ⟨p1, p2, hne, heq⟩ := generateKey_collision
  exact hclaim "findByEmail" p1 p2 hne heq

/-- Claim C4 (amended): `generateKey` is deterministic (a pure function: equal
inputs give equal output), total, always a 64-character string over the
lowercase hex alphabet, and distinct `(operationName, params)` inputs always
produce distinct serialized digest pre-images — collision-freedom of the final
key holds only up to SHA-256 collisions, not absolutely. -/
theorem C4_amended (op1 op2 : String) (p1 p2 : List String)
    (h : (op1, p1) ≠ (op2, p2)) :
    CacheService.generateKey op1 p1 = CacheService.generateKey op1 p1
    ∧ (CacheService.generateKey op1 p1).length = 64
    ∧ (∀ c ∈ (CacheService.generateKey op1 p1).data, c ∈ lowercaseHexDigits)
    ∧ serializeKeyInput op1 p1 ≠ serializeKeyInput op2 p2 := by
  refine ⟨rfl, generateKey_length op1 p1, generateKey_chars op1 p1, ?_⟩
  intro hser
  obtain ⟨h1, h2⟩ := serializeKeyInput_inj hser
  exact h (by rw [h1, h2])

/-- Witness for C4: the two lookup-shape keys at a concrete email. -/
theorem C4_witness :
    CacheService.generateKey "findByEmail" ["a@x.com"]
      = CacheService.generateKey "findByEmail" ["a@x.com"]
    ∧ (CacheService.generateKey "findByEmail" ["a@x.com"]).length = 64
    ∧ (∀ c ∈ (CacheService.generateKey "findByEmail" ["a@x.com"]).data,
        c ∈ lowercaseHexDigits)
    ∧ serializeKeyInput "findByEmail" ["a@x.com"]
        ≠ serializeKeyInput "findByTelefone" ["a@x.com"] :=
  C4_amended "findByEmail" "findByTelefone" ["a@x.com"] ["a@x.com"] (by decide)

/-- Claim C5: when a create, update, or delete fails — in particular when the
DAO mutation raises — no cache deletion happens and the cache is unchanged; on
every success path, no cache deletion precedes the DAO mutation event in the
trace. -/
theorem C5_failure_and_order (s : Sys) (d : PessoaDao.PessoaCreateInput)
    (genId : String) (now : Nat) (id : String) (data : PessoaUpdateInput) :
    (∀ e s1 t, PessoaService.create s d genId now = (Except.error e, s1, t) →
        s1.cache = s.cache ∧ t.filter (fun ev => ev.isCacheDel) = [])
    ∧ (∀ p s1 t, PessoaService.create s d genId now = (Except.ok p, s1, t) →
        (t.takeWhile (fun ev => !ev.isDaoMutation)).filter
          (fun ev => ev.isCacheDel) = [])
    ∧ (∀ e s1 t, PessoaService.update s id data = (Except.error e, s1, t) →
        s1.cache = s.cache ∧ t.filter (fun ev => ev.isCacheDel) = [])
    ∧ (∀ p s1 t, PessoaService.update s id data = (Except.ok p, s1, t) →
        (t.takeWhile (fun ev => !ev.isDaoMutation)).filter
          (fun ev => ev.isCacheDel) = [])
    ∧ (∀ e s1 t, PessoaService.delete s id = (Except.error e, s1, t) →
        s1.cache = s.cache ∧ t.filter (fun ev => ev.isCacheDel) = [])
    ∧ (∀ p s1 t, PessoaService.delete s id = (Except.ok p, s1, t) →
        (t.takeWhile (fun ev => !ev.isDaoMutation)).filter
          (fun ev => ev.isCacheDel) = []) := by
  refine ⟨?_, ?_, ?_, ?_, ?_, ?_⟩
  · intro e s1 t h
    unfold PessoaService.create PessoaDao.create at h
    split_ifs at h <;> simp [Prod.ext_iff] at h <;>
      simp [← h.2.1, ← h.2.2, Event.isCacheDel]
  · intro p s1 t h
    unfold PessoaService.create PessoaDao.create at h
    split_ifs at h <;>
      simp [Prod.ext_iff, PessoaService.evictCacheForPessoa, CacheService.del] at h <;>
      simp [← h.2.2, Event.isCacheDel, Event.isDaoMutation, List.takeWhile]
  · intro e s1 t h
    unfold PessoaService.update PessoaDao.getById PessoaDao.update at h
    cases hfind : s.db.find? (fun p => p.id == id) <;> rw [hfind] at h
    · simp [Prod.ext_iff] at h
      simp [← h.2.1, ← h.2.2, Event.isCacheDel]
    · simp only [] at h
      split_ifs at h <;> simp [Prod.ext_iff] at h <;>
        simp [← h.2.1, ← h.2.2, Event.isCacheDel]
  · intro p s1 t h
    unfold PessoaService.update PessoaDao.getById PessoaDao.update at h
    cases hfind : s.db.find? (fun p => p.id == id) <;> rw [hfind] at h
    · simp [Prod.ext_iff] at h
    · simp only [] at h
      split_ifs at h <;>
        simp [Prod.ext_iff, PessoaService.evictCacheForPessoa, CacheService.del] at h <;>
        simp [← h.2.2, Event.isCacheDel, Event.isDaoMutation, List.takeWhile]
  · intro e s1 t h
    unfold PessoaService.delete PessoaDao.getById PessoaDao.delete at h
    cases hfind : s.db.find? (fun p => p.id == id) <;> rw [hfind] at h <;>
      simp [Prod.ext_iff, PessoaService.evictCacheForPessoa, CacheService.del] at h <;>
      simp [← h.2.1, ← h.2.2, Event.isCacheDel]
  · intro p s1 t h
    unfold PessoaService.delete PessoaDao.getById PessoaDao.delete at h
    cases hfind : s.db.find? (fun p => p.id == id) <;> rw [hfind] at h <;>
      simp [Prod.ext_iff, PessoaService.evictCacheForPessoa, CacheService.del] at h <;>
      simp [← h.2.2, Event.isCacheDel, Event.isDaoMutation, List.takeWhile]

/-- Witness for C5: duplicate-email create, duplicate-email update and absent-id
delete leave the cache untouched with no deletion event; the three success paths
fire no deletion before their mutation event. -/
theorem C5_witness :
    ((PessoaService.create sysDb createInputDupEmail "id-9" 7).2.1.cache = sysDb.cache
      ∧ (PessoaService.create sysDb createInputDupEmail "id-9" 7).2.2.filter
          (fun ev => ev.isCacheDel) = [])
    ∧ ((PessoaService.create sysDb createInputC "id-9" 7).2.2.takeWhile
        (fun ev => !ev.isDaoMutation)).filter (fun ev => ev.isCacheDel) = []
    ∧ ((PessoaService.update sysDb "id-1" updEmailDup).2.1.cache = sysDb.cache
      ∧ (PessoaService.update sysDb "id-1" updEmailDup).2.2.filter
          (fun ev => ev.isCacheDel) = [])
    ∧ ((PessoaService.update sysDb "id-1" updIdadeOnly).2.2.takeWhile
        (fun ev => !ev.isDaoMutation)).filter (fun ev => ev.isCacheDel) = []
    ∧ ((PessoaService.delete sysDb "id-zz").2.1.cache = sysDb.cache
      ∧ (PessoaService.delete sysDb "id-zz").2.2.filter
          (fun ev => ev.isCacheDel) = [])
    ∧ ((PessoaService.delete sysDb "id-2").2.2.takeWhile
        (fun ev => !ev.isDaoMutation)).filter (fun ev => ev.isCacheDel) = [] := by
  have h := C5_failure_and_order sysDb createInputDupEmail "id-9" 7 "id-1" updEmailDup
  have h2 := C5_failure_and_order sysDb createInputC "id-9" 7 "id-1" updIdadeOnly
  have h3 := C5_failure_and_order sysDb createInputC "id-9" 7 "id-zz" updIdadeOnly
  have h4 := C5_failure_and_order sysDb createInputC "id-9" 7 "id-2" updIdadeOnly
  refine ⟨h.1 _ _ _ rfl, h2.2.1 _ _ _ rfl, h.2.2.1 _ _ _ rfl,
    h2.2.2.2.1 _ _ _ rfl, h3.2.2.2.2.1 _ _ _ rfl, h4.2.2.2.2.2 _ _ _ rfl⟩

/-- Counterexample for C6: a uniqueness violation does not surface as a
409-equivalent.  On create, the raw Prisma P2002 error is not an HttpException,
so the filter's status is 500; on update, the controller's catch-all converts
the failure into a 404 NotFound.  (The repository's own E2E test expects 500 on
duplicates.) -/
theorem C6_counterexample :
    (PessoaService.create sysDb createInputDupEmail "id-9" 7).1
      = Except.error (ServiceErr.dao (DaoErr.uniqueViolation "email"))
    ∧ (HttpExceptionFilter.filterCatch false
        (exnOfServiceErr (ServiceErr.dao (DaoErr.uniqueViolation "email")))
        "/pessoas" "POST").1.statusCode = 500
    ∧ (HttpExceptionFilter.filterCatch false
        (exnOfServiceErr (ServiceErr.dao (DaoErr.uniqueViolation "email")))
        "/pessoas" "POST").1.statusCode ≠ 409
    ∧ (PessoaController.update sysDb "id-1" updEmailDup).1
      = Except.error (ServiceErr.notFound "Pessoa with ID id-1 not found")
    ∧ HttpExceptionFilter.statusOf
        (exnOfServiceErr (ServiceErr.notFound "Pessoa with ID id-1 not found")) = 404 := by
  refine ⟨rfl, by decide, by decide, by rfl, by decide⟩

/-- Claim C6 (amended): a uniqueness violation that reaches the filter as a raw
Prisma P2002 is labelled `DUPLICATE_ENTRY` and carries the offending field name
in the message and details in every mode, but with HTTP status 500, not 409;
any failing update is converted by the controller catch-all into a NotFound
that surfaces as 404. -/
theorem C6_amended (expose : Bool) (f : String) (url method : String)
    (s : Sys) (id : String) (data : PessoaUpdateInput)
    (hf : f ≠ "") :
    ((HttpExceptionFilter.filterCatch expose
        (exnOfServiceErr (ServiceErr.dao (DaoErr.uniqueViolation f))) url method).1.statusCode
      = 500
    ∧ (HttpExceptionFilter.filterCatch expose
        (exnOfServiceErr (ServiceErr.dao (DaoErr.uniqueViolation f))) url method).1.error
      = "DUPLICATE_ENTRY"
    ∧ (HttpExceptionFilter.filterCatch expose
        (exnOfServiceErr (ServiceErr.dao (DaoErr.uniqueViolation f))) url method).1.message
      = s!"A record with this {f} already exists"
    ∧ (HttpExceptionFilter.filterCatch expose
        (exnOfServiceErr (ServiceErr.dao (DaoErr.uniqueViolation f))) url method).1.details
      = some [("field", f), ("constraint", "unique")])
    ∧ (∀ e s1 t, PessoaService.update s id data = (Except.error e, s1, t) →
        PessoaController.update s id data
          = (Except.error (ServiceErr.notFound s!"Pessoa with ID {id} not found"), s1, t)
        ∧ HttpExceptionFilter.statusOf
            (exnOfServiceErr (ServiceErr.notFound s!"Pessoa with ID {id} not found"))
          = 404) := by
  constructor
  · unfold HttpExceptionFilter.filterCatch HttpExceptionFilter.extractError
      HttpExceptionFilter.statusOf
    simp [exnOfServiceErr, jsOrStr, hf]
  · intro e s1 t h
    constructor
    · unfold PessoaController.update
      rw [h]
    · rfl

/-- Witness for C6 (amended): a concrete duplicate-email P2002 yields the
`DUPLICATE_ENTRY` label, and a concrete failing update surfaces as NotFound. -/
theorem C6_witness :
    (HttpExceptionFilter.filterCatch false
        (exnOfServiceErr (ServiceErr.dao (DaoErr.uniqueViolation "email")))
        "/pessoas" "POST").1.error = "DUPLICATE_ENTRY"
    ∧ (PessoaController.update sysDb "id-zz" updIdadeOnly).1
      = Except.error (ServiceErr.notFound "Pessoa with ID id-zz not found") := by
  have h := C6_amended false "email" "/pessoas" "POST" sysDb "id-zz" updIdadeOnly
    (by decide)
  refine ⟨h.1.2.1, ?_⟩
  rw [(h.2 _ _ _ rfl).1]
  rfl

/-- Claim C7: `CacheService.get` is total — absence is a normal return, not a
failure — and each call increments exactly one counter: the hit counter with the
stored value returned when the key is present, the miss counter when absent. -/
theorem C7_cache_get_total (s : Sys) (key : String) :
    (∀ v, cacheLookup s.cache key = some v →
      CacheService.get s key =
        (some v, { s with metrics := MetricsService.incrementCacheHit s.metrics },
         [Event.cacheGet key true])
      ∧ (MetricsService.incrementCacheHit s.metrics).cacheHits
          = s.metrics.cacheHits + 1
      ∧ (MetricsService.incrementCacheHit s.metrics).cacheMisses
          = s.metrics.cacheMisses)
    ∧ (cacheLookup s.cache key = none →
      CacheService.get s key =
        (none, { s with metrics := MetricsService.incrementCacheMiss s.metrics },
         [Event.cacheGet key false])
      ∧ (MetricsService.incrementCacheMiss s.metrics).cacheMisses
          = s.metrics.cacheMisses + 1
      ∧ (MetricsService.incrementCacheMiss s.metrics).cacheHits
          = s.metrics.cacheHits) := by
  constructor
  · intro v hv
    exact ⟨by simp [CacheService.get, hv], rfl, rfl⟩
  · intro hn
    exact ⟨by simp [CacheService.get, hn], rfl, rfl⟩

/-- Witness for C7: a present key returns its value and bumps hits; a missing
key returns absence and bumps misses. -/
theorem C7_witness :
    (CacheService.get sysHit
        (CacheService.generateKey "findByEmail" ["a@x.com"])).1 = some pessoaA
    ∧ (CacheService.get sysHit
        (CacheService.generateKey "findByEmail" ["a@x.com"])).2.1.metrics.cacheHits
        = sysHit.metrics.cacheHits + 1
    ∧ (CacheService.get sysDb "no-such-key").1 = none
    ∧ (CacheService.get sysDb "no-such-key").2.1.metrics.cacheMisses
        = sysDb.metrics.cacheMisses + 1 := by
  have h1 := (C7_cache_get_total sysHit
    (CacheService.generateKey "findByEmail" ["a@x.com"])).1 pessoaA
    (by simp [sysHit, cacheLookup])
  have h2 := (C7_cache_get_total sysDb "no-such-key").2 (by simp [sysDb, cacheLookup])
  exact ⟨by rw [h1.1], by rw [h1.1]; exact h1.2.1, by rw [h2.1], by rw [h2.1]; exact h2.2.1⟩

/-- Claim C8: the snapshot's cache section reports the current counters, and its
hit rate is exactly `round(N/(N+M)*100, 2)` (0 when `N+M = 0`), recomputed from
the state on each call (`getMetrics` reads and does not mutate). -/
theorem C8_cache_hit_rate (m : Metrics) :
    (MetricsService.getMetrics m).1 =
      ⟨m.cacheHits, m.cacheMisses, specHitRate m.cacheHits m.cacheMisses,
       m.cacheHits + m.cacheMisses⟩
    ∧ (MetricsService.getMetrics m).2 = m := by
  constructor
  · have hrate : MetricsService.getCacheHitRate m
        = specHitRate m.cacheHits m.cacheMisses := by
      unfold MetricsService.getCacheHitRate specHitRate specRound2
      by_cases h : m.cacheHits + m.cacheMisses = 0 <;> simp [h, mul_assoc]
    simp [MetricsService.getMetrics, hrate]
  · rfl

/-- Concrete values of the spec hit-rate formula, including a rounded case. -/
theorem specHitRate_values :
    specHitRate 2 2 = 50 ∧ specHitRate 0 0 = 0 ∧ specHitRate 1 2 = 3333 / 100
    ∧ specHitRate 150 50 = 75 := by
  refine ⟨?_, ?_, ?_, ?_⟩ <;> norm_num [specHitRate, specRound2, round_eq]

/-- Claim C10: the metrics invariant — per endpoint, sample count equals request
count and errors never exceed requests — holds after every operation;
`trackRequest` appends exactly one sample and adds exactly one to the request
count of its key; `getMetrics` does not mutate; `reset` clears all three maps
together. -/
theorem C10_metrics_invariant (m : Metrics) (hm : MetricsService.Inv m)
    (method path : String) (rt sc now : Nat) :
    MetricsService.Inv (MetricsService.trackRequest m method path rt sc)
    ∧ MetricsService.Inv (MetricsService.incrementCacheHit m)
    ∧ MetricsService.Inv (MetricsService.incrementCacheMiss m)
    ∧ (MetricsService.getMetrics m).2 = m
    ∧ MetricsService.Inv (MetricsService.reset m now)
    ∧ (MetricsService.trackRequest m method path rt sc).responseTimes
        (s!"{method} {path}") = m.responseTimes (s!"{method} {path}") ++ [rt]
    ∧ (MetricsService.trackRequest m method path rt sc).requestCounts
        (s!"{method} {path}") = m.requestCounts (s!"{method} {path}") + 1
    ∧ (∀ k, (MetricsService.reset m now).requestCounts k = 0
        ∧ (MetricsService.reset m now).responseTimes k = []
        ∧ (MetricsService.reset m now).errorCounts k = 0) := by
  refine ⟨?_, fun k => hm k, fun k => hm k, rfl, ?_, ?_, ?_, ?_⟩
  · intro k
    obtain ⟨h1, h2⟩ := hm k
    unfold MetricsService.trackRequest
    by_cases hk : k = s!"{method} {path}"
    · subst hk
      by_cases hsc : 400 ≤ sc <;> simp [hsc, h1, h2] <;> omega
    · by_cases hsc : 400 ≤ sc <;> simp [hsc, hk, h1, h2]
  · intro k
    simp [MetricsService.reset]
  · simp [MetricsService.trackRequest]
  · simp [MetricsService.trackRequest]
  · intro k
    simp [MetricsService.reset]

/-- Witness for C10: the invariant holds for a fresh metrics state and is kept
by a tracked request, whose key count becomes one. -/
theorem C10_witness :
    MetricsService.Inv metrics0
    ∧ MetricsService.Inv (MetricsService.trackRequest metrics0 "GET" "/pessoas" 5 200)
    ∧ (MetricsService.trackRequest metrics0 "GET" "/pessoas" 5 200).requestCounts
        "GET /pessoas"
      = metrics0.requestCounts "GET /pessoas" + 1 := by
  have hm : MetricsService.Inv metrics0 := by
    intro k
    simp [metrics0, MetricsService.init]
  have h := C10_metrics_invariant metrics0 hm "GET" "/pessoas" 5 200 0
  exact ⟨hm, h.1, h.2.2.2.2.2.2.1⟩

/-- Claim C9: with error-detail exposure off, every 4xx response carries a
generic message that is a function of the status code alone and no details
field; any two exceptions with the same 4xx status produce identical
client-visible message and details; the internal log record retains the
original message and details in both modes. -/
theorem C9_production_sanitization (exn exn2 : Exn) (url method url2 method2 : String)
    (h400 : 400 ≤ HttpExceptionFilter.statusOf exn)
    (h500 : HttpExceptionFilter.statusOf exn < 500) :
    ((HttpExceptionFilter.filterCatch false exn url method).1.message
        = HttpExceptionFilter.genericMessage (HttpExceptionFilter.statusOf exn)
      ∧ (HttpExceptionFilter.filterCatch false exn url method).1.details = none)
    ∧ (HttpExceptionFilter.statusOf exn2 = HttpExceptionFilter.statusOf exn →
        (HttpExceptionFilter.filterCatch false exn2 url2 method2).1.message
          = (HttpExceptionFilter.filterCatch false exn url method).1.message
        ∧ (HttpExceptionFilter.filterCatch false exn2 url2 method2).1.details
          = (HttpExceptionFilter.filterCatch false exn url method).1.details)
    ∧ (∀ expose : Bool,
        (HttpExceptionFilter.filterCatch expose exn url method).2.message
          = (HttpExceptionFilter.extractError exn).errorMessage
        ∧ (HttpExceptionFilter.filterCatch expose exn url method).2.details
          = (HttpExceptionFilter.extractError exn).errorDetails) := by
  have hmain : ∀ (ex : Exn) (u m : String), HttpExceptionFilter.statusOf ex < 500 →
      (HttpExceptionFilter.filterCatch false ex u m).1.message
        = HttpExceptionFilter.genericMessage (HttpExceptionFilter.statusOf ex)
      ∧ (HttpExceptionFilter.filterCatch false ex u m).1.details = none := by
    intro ex u m hlt
    unfold HttpExceptionFilter.filterCatch
    simp [hlt]
  refine ⟨hmain exn url method h500, ?_, ?_⟩
  · intro hst
    have h1 := hmain exn url method h500
    have h2 := hmain exn2 url2 method2 (by rw [hst]; exact h500)
    rw [h1.1, h1.2, h2.1, h2.2, hst]
    exact ⟨rfl, rfl⟩
  · intro expose
    unfold HttpExceptionFilter.filterCatch
    exact ⟨rfl, rfl⟩

/-- Witness for C9: two different 404 NotFound exceptions sanitize to the same
generic message, while the development-mode log keeps the original message. -/
theorem C9_witness :
    (HttpExceptionFilter.filterCatch false
        (exnOfServiceErr (ServiceErr.notFound "Pessoa with email \"a@x.com\" not found"))
        "/pessoas/email/a@x.com" "GET").1.message
      = HttpExceptionFilter.genericMessage 404
    ∧ (HttpExceptionFilter.filterCatch false
        (exnOfServiceErr (ServiceErr.notFound "Pessoa with ID \"id-7\" not found"))
        "/pessoas/id-7" "GET").1.message
      = (HttpExceptionFilter.filterCatch false
          (exnOfServiceErr (ServiceErr.notFound "Pessoa with email \"a@x.com\" not found"))
          "/pessoas/email/a@x.com" "GET").1.message
    ∧ (HttpExceptionFilter.filterCatch true
        (exnOfServiceErr (ServiceErr.notFound "Pessoa with email \"a@x.com\" not found"))
        "/pessoas/email/a@x.com" "GET").2.message
      = (HttpExceptionFilter.extractError
          (exnOfServiceErr
            (ServiceErr.notFound "Pessoa with email \"a@x.com\" not found"))).errorMessage := by
  have h := C9_production_sanitization
    (exnOfServiceErr (ServiceErr.notFound "Pessoa with email \"a@x.com\" not found"))
    (exnOfServiceErr (ServiceErr.notFound "Pessoa with ID \"id-7\" not found"))
    "/pessoas/email/a@x.com" "GET" "/pessoas/id-7" "GET" (by decide) (by decide)
  exact ⟨h.1.1, (h.2.1 (by decide)).1, (h.2.2 true).1⟩
